import Mathlib

/-!
Shallow embedding of the navigation orchestrator (`gotoURL`) and its
companion warning analyzer (`getNavigationWarnings`).  The implementation
file `lighthouse-core/gather/driver/navigation.js` is absent from the
repository snapshot; only its unit tests are present
(`lighthouse-core/test/gather/driver/navigation-test.js`).  The
definitions below are therefore modelled from the specification
(spec.md, sections 3, 4, 6, 7, 8), with the unit tests taken as the
authority wherever they pin concrete behaviour (protocol command names,
listener behaviour at concrete events, scenario outcomes).

Asynchronous execution is modelled as a sequence of batches of
synchronously delivered protocol events, separated by microtask flush
points; the settlement of the returned promise is observed at flush
points, after every event of a batch has been delivered to all
listeners.  The overall load timer of `maxWaitForLoadMs` is modelled by
an explicit timer-expiry event in the stream.
-/

namespace Navigation

/-- Modelled from the spec (section 3, Warning): a warning is either a
timeout warning or a url-mismatch warning whose values carry the
original requested and final URL strings. -/
inductive Warning
  | timeout
  | urlMismatch (requested : String) (final : String)
deriving DecidableEq, Repr

/-- Modelled from the spec (section 3, NavigationRecord): the fields fed
to the warning analyzer. -/
structure NavigationRecord where
  timedOut : Bool
  requestedUrl : String
  finalUrl : String
deriving DecidableEq, Repr

/-- Modelled from the spec (section 4.5 rule 2): normalizing a URL
discards any fragment component, i.e. keeps the characters before the
first hash sign. -/
def stripFragment (url : String) : String :=
  String.mk (url.data.takeWhile (fun c => c != '#'))

/-- Modelled from the spec (section 4.5 rule 2): a URL whose scheme
indicates an internal error page; the example pseudo-scheme appearing in
spec.md and in the tests is chrome-error. -/
def isErrorPageUrl (url : String) : Bool :=
  decide (url.data.take "chrome-error://".data.length = "chrome-error://".data)

/-- Recognizes a url-mismatch warning. -/
def isMismatchWarning : Warning → Bool
  | .urlMismatch _ _ => true
  | .timeout => false

/-- Modelled from the spec (section 4.5): `getNavigationWarnings` is missing
from the snapshot together with the rest of navigation.js.  Rules in
order: a timeout warning when the record timed out, then a url-mismatch
warning when the final URL is an internal-error page or the
fragment-stripped URLs differ; the mismatch warning carries the original
un-normalized URL strings. -/
def getNavigationWarnings (r : NavigationRecord) : List Warning :=
  (if r.timedOut then [Warning.timeout] else []) ++
  (if isErrorPageUrl r.finalUrl || stripFragment r.requestedUrl != stripFragment r.finalUrl
   then [Warning.urlMismatch r.requestedUrl r.finalUrl]
   else [])

/-- Modelled from the spec (section 3, NavigationOptions): the requested
completion conditions. -/
inductive WaitCondition
  | navigated
  | load
  | fcp
deriving DecidableEq, Repr

/-- Modelled from the spec (section 3, NavigationOptions). -/
structure NavigationOptions where
  waitUntil : List WaitCondition
  maxWaitForLoadMs : Nat
  cpuQuietThresholdMs : Option Nat
  networkQuietThresholdMs : Option Nat
deriving DecidableEq, Repr

/-- Protocol events relevant to one `gotoURL` call, as fired by the unit
tests: frame navigations (whose frame objects may omit the id field),
DOM-content and load completion, named lifecycle notifications, and the
expiry of the overall load timer. -/
inductive ProtocolEvent
  | frameNavigated (frameId : Option String) (url : String)
  | domContentEventFired
  | loadEventFired
  | lifecycleEvent (name : String)
  | loadTimerExpired
deriving DecidableEq, Repr

/-- Recognizes a frame-navigated event. -/
def isFrameNavigatedEvent : ProtocolEvent → Bool
  | .frameNavigated _ _ => true
  | _ => false

/-- Recognizes the DOM-content completion event. -/
def isDomContentEvent : ProtocolEvent → Bool
  | .domContentEventFired => true
  | _ => false

/-- Recognizes the load-completed event. -/
def isLoadEvent : ProtocolEvent → Bool
  | .loadEventFired => true
  | _ => false

/-- Recognizes the first-contentful-paint lifecycle notification. -/
def isFcpEvent : ProtocolEvent → Bool
  | .lifecycleEvent name => name == "firstContentfulPaint"
  | _ => false

/-- Recognizes the expiry of the overall load timer. -/
def isTimerEvent : ProtocolEvent → Bool
  | .loadTimerExpired => true
  | _ => false

/-- The state accumulated by the listeners of one `gotoURL` call: the
main-frame redirect chain and the single-resolution waiter flags. -/
structure WaitState where
  chain : List String
  navigatedFired : Bool
  domContentFired : Bool
  loadFired : Bool
  fcpFired : Bool
  timerFired : Bool
deriving DecidableEq, Repr

/-- All waiters pending, empty redirect chain. -/
def initWaitState : WaitState :=
  { chain := [], navigatedFired := false, domContentFired := false,
    loadFired := false, fcpFired := false, timerFired := false }

/-- Modelled from the spec (section 4.4): a quiet-period waiter is part of
the conjunction only when its threshold is supplied; the only threshold
exercised anywhere in the tests is 0, with no network or CPU activity,
in which case the waiter resolves as soon as it is armed.  The model
treats an absent threshold and a zero threshold as immediately
satisfied. -/
def quietSatisfied : Option Nat → Bool
  | none => true
  | some t => t == 0

/-- Modelled from the spec (sections 4.2 and 4.3): whether one requested
completion condition has been satisfied.  The load condition requires
the load-completed event together with the DOM-content completion
signal. -/
def conditionSatisfied (s : WaitState) : WaitCondition → Bool
  | .navigated => s.navigatedFired
  | .load => s.loadFired && s.domContentFired
  | .fcp => s.fcpFired

/-- Modelled from the spec (section 4.1 step 4): the conjunction of every
waiter selected by waitUntil, plus the quiet-period waiters. -/
def allSatisfied (opts : NavigationOptions) (s : WaitState) : Bool :=
  opts.waitUntil.all (conditionSatisfied s) &&
  quietSatisfied opts.cpuQuietThresholdMs &&
  quietSatisfied opts.networkQuietThresholdMs

/-- The URLs of the frame-navigated events whose frame id equals the main
frame id, in order; events with a different or missing frame id are
excluded (spec section 4.2). -/
def mainFrameUrls (mainFrameId : String) (events : List ProtocolEvent) : List String :=
  events.filterMap fun e =>
    match e with
    | .frameNavigated frameId url =>
      if frameId = some mainFrameId then some url else none
    | _ => none

/-- One protocol event delivered to all listeners of a `gotoURL` call.
The frame tracker appends to the redirect chain only on main-frame
events (spec section 4.2); the navigated waiter resolves on the first
frame-navigated event regardless of frame id, as the unit tests pin
(navigation-test.js lines 91-123 and 154-186 fire frame objects without
an id and observe the waiter resolve).  The first-contentful-paint
waiter resolves on the lifecycle notification of that name
(navigation-test.js line 181).  The overall timer only wins the race
when the conjunction is not yet satisfied at the moment it fires. -/
def stepEvent (opts : NavigationOptions) (mainFrameId : String)
    (s : WaitState) : ProtocolEvent → WaitState
  | .frameNavigated frameId url =>
    { s with navigatedFired := true,
             chain := if frameId = some mainFrameId then s.chain ++ [url] else s.chain }
  | .domContentEventFired => { s with domContentFired := true }
  | .loadEventFired => { s with loadFired := true }
  | .lifecycleEvent name =>
    if name = "firstContentfulPaint" then { s with fcpFired := true } else s
  | .loadTimerExpired =>
    if allSatisfied opts s then s else { s with timerFired := true }

/-- The observation made at a flush point: the timer promise, when it has
fired, won the race (spec section 4.1 step 5); otherwise the
conjunction resolves the race when it is satisfied; otherwise the
promise is still pending. -/
def batchOutcome (opts : NavigationOptions) (s : WaitState) :
    Option (WaitState × Bool) :=
  if s.timerFired then some (s, true)
  else if allSatisfied opts s then some (s, false)
  else none

/-- The settlement status of the returned promise: pending, or resolved
with the accumulated state and the timed-out flag. -/
inductive GotoOutcome
  | pending (s : WaitState)
  | resolved (s : WaitState) (timedOut : Bool)
deriving DecidableEq, Repr

/-- Whether the promise has settled. -/
def GotoOutcome.isSettled : GotoOutcome → Bool
  | .pending _ => false
  | .resolved _ _ => true

/-- The timed-out flag of a settled promise (false while pending). -/
def GotoOutcome.timedOutFlag : GotoOutcome → Bool
  | .pending _ => false
  | .resolved _ t => t

/-- Runs the event batches of one `gotoURL` call: every event of a batch
is delivered to all listeners, then the race is observed at the flush
point ending the batch; once the promise settles, later batches are
irrelevant. -/
def runBatches (opts : NavigationOptions) (mainFrameId : String) :
    WaitState → List (List ProtocolEvent) → GotoOutcome
  | s, [] => .pending s
  | s, b :: rest =>
    let s2 := b.foldl (stepEvent opts mainFrameId) s
    match batchOutcome opts s2 with
    | some r => .resolved r.1 r.2
    | none => runBatches opts mainFrameId s2 rest

/-- The protocol commands and registered event listeners of one
`gotoURL` call. -/
structure SessionLog where
  commands : List String
  listeners : List String
deriving DecidableEq, Repr

/-- The exact validation message asserted by the tests
(navigation-test.js line 196). -/
def fcpWithoutLoadMessage : String :=
  "Cannot wait for FCP without waiting for page load"

/-- Modelled from the spec (section 4.1 preconditions): waitUntil must be
non-empty (no message is given by the spec for this case), and fcp
requires load, failing with the exact message the tests assert. -/
def validateWaitUntil (waitUntil : List WaitCondition) : Option String :=
  if waitUntil = [] then some "waitUntil must be non-empty"
  else if WaitCondition.fcp ∈ waitUntil ∧ WaitCondition.load ∉ waitUntil then
    some fcpWithoutLoadMessage
  else none

/-- The protocol commands a successful `gotoURL` call issues, in the
order the unit tests mock them (navigation-test.js lines 30-37). -/
def navigationCommands : List String :=
  ["Page.enable", "Network.enable", "Page.enable", "Page.setLifecycleEventsEnabled",
   "Page.navigate", "Runtime.evaluate", "Page.getResourceTree"]

/-- The event listeners registered by a successful `gotoURL` call for the
requested completion conditions (spec section 4.1 step 1; event names
from the unit tests). -/
def listenersFor (waitUntil : List WaitCondition) : List String :=
  ["Page.frameNavigated"] ++
  (if WaitCondition.load ∈ waitUntil
   then ["Page.domContentEventFired", "Page.loadEventFired"] else []) ++
  (if WaitCondition.fcp ∈ waitUntil then ["Page.lifecycleEvent"] else [])

/-- The record `gotoURL` resolves with (spec sections 4.1 step 7 and 2):
the navigation record together with the warnings produced by the
analyzer. -/
structure GotoResult where
  requestedUrl : String
  finalUrl : String
  timedOut : Bool
  warnings : List Warning
deriving DecidableEq, Repr

/-- Modelled from the spec (sections 4.1 step 7 and 4.2): the final URL is
the last entry of the main-frame redirect chain, or the requested URL if
the chain is empty, and the warning analyzer is applied to the resulting
record. -/
def finalizeRecord (requestedUrl : String) (s : WaitState) (timedOut : Bool) :
    GotoResult :=
  let finalUrl := s.chain.getLast?.getD requestedUrl
  { requestedUrl := requestedUrl, finalUrl := finalUrl, timedOut := timedOut,
    warnings := getNavigationWarnings ⟨timedOut, requestedUrl, finalUrl⟩ }

/-- Modelled from the spec (section 4.1): `gotoURL` validates the
requested conditions before any protocol interaction — on a validation
failure no command is sent and no listener is registered — and otherwise
registers the listeners, issues the commands, and runs the event
batches. -/
def gotoURL (requestedUrl : String) (opts : NavigationOptions)
    (mainFrameId : String) (batches : List (List ProtocolEvent)) :
    SessionLog × Except String GotoOutcome :=
  match validateWaitUntil opts.waitUntil with
  | some msg => (⟨[], []⟩, .error msg)
  | none =>
    (⟨navigationCommands, listenersFor opts.waitUntil⟩,
     .ok (runBatches opts mainFrameId initWaitState batches))

/-- The record of a `gotoURL` call whose promise has resolved; none when
the call failed validation or is still pending. -/
def gotoURLRecord (requestedUrl : String) (opts : NavigationOptions)
    (mainFrameId : String) (batches : List (List ProtocolEvent)) :
    Option GotoResult :=
  match (gotoURL requestedUrl opts mainFrameId batches).2 with
  | .ok (.resolved s t) => some (finalizeRecord requestedUrl s t)
  | .ok (.pending _) => none
  | .error _ => none

/-- The frame-navigated events of Scenario A of the tests
(navigation-test.js lines 66-73): main-frame redirects through five URLs
with three child-frame navigations interleaved. -/
def scenarioAEvents : List ProtocolEvent :=
  [.frameNavigated (some "ABC") "http://example.com",
   .frameNavigated (some "ABC") "https://example.com",
   .frameNavigated (some "ABC") "https://www.example.com",
   .frameNavigated (some "ABC") "https://m.example.com",
   .frameNavigated (some "ad1") "https://frame-a.example.com",
   .frameNavigated (some "ABC") "https://m.example.com/client",
   .frameNavigated (some "ad2") "https://frame-b.example.com",
   .frameNavigated (some "ad3") "https://frame-c.example.com"]

/-- The wait state after the Scenario A events. -/
def scenarioAState : WaitState :=
  { chain := ["http://example.com", "https://example.com", "https://www.example.com",
              "https://m.example.com", "https://m.example.com/client"],
    navigatedFired := true, domContentFired := false, loadFired := false,
    fcpFired := false, timerFired := false }

/-- The record Scenario A resolves with (navigation-test.js lines 79-88). -/
def scenarioARecord : GotoResult :=
  { requestedUrl := "http://example.com", finalUrl := "https://m.example.com/client",
    timedOut := false,
    warnings := [Warning.urlMismatch "http://example.com" "https://m.example.com/client"] }

/-- The event batches of Scenario E of the tests (navigation-test.js
lines 154-186): frame-navigated, then DOM-content and load, then the
first-contentful-paint lifecycle notification, each batch separated by a
flush point. -/
def scenarioEBatches : List (List ProtocolEvent) :=
  [[.frameNavigated none "https://www.example.com"],
   [.domContentEventFired, .loadEventFired],
   [.lifecycleEvent "firstContentfulPaint"]]


/-! ### Step and fold lemmas -/

theorem stepEvent_navigatedFired (opts : NavigationOptions) (mainFrameId : String)
    (s : WaitState) (e : ProtocolEvent) :
    (stepEvent opts mainFrameId s e).navigatedFired
      = (s.navigatedFired || isFrameNavigatedEvent e) := by
  cases e <;> simp [stepEvent, isFrameNavigatedEvent]
  case lifecycleEvent name => split <;> rfl
  case loadTimerExpired => split <;> rfl

theorem stepEvent_domContentFired (opts : NavigationOptions) (mainFrameId : String)
    (s : WaitState) (e : ProtocolEvent) :
    (stepEvent opts mainFrameId s e).domContentFired
      = (s.domContentFired || isDomContentEvent e) := by
  cases e <;> simp [stepEvent, isDomContentEvent]
  case lifecycleEvent name => split <;> rfl
  case loadTimerExpired => split <;> rfl

theorem stepEvent_loadFired (opts : NavigationOptions) (mainFrameId : String)
    (s : WaitState) (e : ProtocolEvent) :
    (stepEvent opts mainFrameId s e).loadFired = (s.loadFired || isLoadEvent e) := by
  cases e <;> simp [stepEvent, isLoadEvent]
  case lifecycleEvent name => split <;> rfl
  case loadTimerExpired => split <;> rfl

theorem stepEvent_fcpFired (opts : NavigationOptions) (mainFrameId : String)
    (s : WaitState) (e : ProtocolEvent) :
    (stepEvent opts mainFrameId s e).fcpFired = (s.fcpFired || isFcpEvent e) := by
  cases e <;> simp [stepEvent, isFcpEvent]
  case lifecycleEvent name =>
    by_cases h : name = "firstContentfulPaint" <;> simp [h]
  case loadTimerExpired => split <;> rfl

theorem stepEvent_timerFired (opts : NavigationOptions) (mainFrameId : String)
    (s : WaitState) (e : ProtocolEvent) (h : isTimerEvent e = false) :
    (stepEvent opts mainFrameId s e).timerFired = s.timerFired := by
  cases e with
  | frameNavigated fid url => rfl
  | domContentEventFired => rfl
  | loadEventFired => rfl
  | lifecycleEvent name =>
    simp only [stepEvent]
    split <;> rfl
  | loadTimerExpired => simp [isTimerEvent] at h

theorem mainFrameUrls_append (mainFrameId : String) (l1 l2 : List ProtocolEvent) :
    mainFrameUrls mainFrameId (l1 ++ l2)
      = mainFrameUrls mainFrameId l1 ++ mainFrameUrls mainFrameId l2 := by
  simp [mainFrameUrls, List.filterMap_append]

theorem foldl_navigatedFired (opts : NavigationOptions) (mainFrameId : String)
    (b : List ProtocolEvent) (s : WaitState) :
    (b.foldl (stepEvent opts mainFrameId) s).navigatedFired
      = (s.navigatedFired || b.any isFrameNavigatedEvent) := by
  induction b generalizing s with
  | nil => simp
  | cons e t ih =>
    simp [List.foldl_cons, List.any_cons, ih, stepEvent_navigatedFired, Bool.or_assoc]

theorem foldl_domContentFired (opts : NavigationOptions) (mainFrameId : String)
    (b : List ProtocolEvent) (s : WaitState) :
    (b.foldl (stepEvent opts mainFrameId) s).domContentFired
      = (s.domContentFired || b.any isDomContentEvent) := by
  induction b generalizing s with
  | nil => simp
  | cons e t ih =>
    simp [List.foldl_cons, List.any_cons, ih, stepEvent_domContentFired, Bool.or_assoc]

theorem foldl_loadFired (opts : NavigationOptions) (mainFrameId : String)
    (b : List ProtocolEvent) (s : WaitState) :
    (b.foldl (stepEvent opts mainFrameId) s).loadFired
      = (s.loadFired || b.any isLoadEvent) := by
  induction b generalizing s with
  | nil => simp
  | cons e t ih =>
    simp [List.foldl_cons, List.any_cons, ih, stepEvent_loadFired, Bool.or_assoc]

theorem foldl_fcpFired (opts : NavigationOptions) (mainFrameId : String)
    (b : List ProtocolEvent) (s : WaitState) :
    (b.foldl (stepEvent opts mainFrameId) s).fcpFired
      = (s.fcpFired || b.any isFcpEvent) := by
  induction b generalizing s with
  | nil => simp
  | cons e t ih =>
    simp [List.foldl_cons, List.any_cons, ih, stepEvent_fcpFired, Bool.or_assoc]

theorem foldl_chain (opts : NavigationOptions) (mainFrameId : String)
    (b : List ProtocolEvent) (s : WaitState) :
    (b.foldl (stepEvent opts mainFrameId) s).chain
      = s.chain ++ mainFrameUrls mainFrameId b := by
  induction b generalizing s with
  | nil => simp [mainFrameUrls]
  | cons e t ih =>
    rw [List.foldl_cons, ih]
    cases e <;> simp [stepEvent, mainFrameUrls, List.filterMap_cons]
    case frameNavigated fid url => split <;> simp
    case lifecycleEvent name => split <;> rfl
    case loadTimerExpired => split <;> rfl

theorem foldl_timerFired (opts : NavigationOptions) (mainFrameId : String)
    (b : List ProtocolEvent) (s : WaitState)
    (hb : b.all (fun e => !isTimerEvent e) = true) :
    (b.foldl (stepEvent opts mainFrameId) s).timerFired = s.timerFired := by
  induction b generalizing s with
  | nil => rfl
  | cons e t ih =>
    simp only [List.all_cons, Bool.and_eq_true, Bool.not_eq_true'] at hb
    rw [List.foldl_cons, ih _ hb.2, stepEvent_timerFired _ _ _ _ hb.1]

/-! ### Monotonicity of the waiter flags -/

theorem conditionSatisfied_step_mono (opts : NavigationOptions) (mainFrameId : String)
    (s : WaitState) (e : ProtocolEvent) (c : WaitCondition)
    (h : conditionSatisfied s c = true) :
    conditionSatisfied (stepEvent opts mainFrameId s e) c = true := by
  cases c with
  | navigated =>
    simp only [conditionSatisfied, stepEvent_navigatedFired] at h ⊢
    simp [h]
  | load =>
    simp only [conditionSatisfied, stepEvent_loadFired, stepEvent_domContentFired,
      Bool.and_eq_true] at h ⊢
    simp [h.1, h.2]
  | fcp =>
    simp only [conditionSatisfied, stepEvent_fcpFired] at h ⊢
    simp [h]

theorem allSatisfied_step_mono (opts : NavigationOptions) (mainFrameId : String)
    (s : WaitState) (e : ProtocolEvent) (h : allSatisfied opts s = true) :
    allSatisfied opts (stepEvent opts mainFrameId s e) = true := by
  simp only [allSatisfied, Bool.and_eq_true, List.all_eq_true] at h ⊢
  exact ⟨⟨fun c hc => conditionSatisfied_step_mono _ _ _ _ _ (h.1.1 c hc), h.1.2⟩, h.2⟩

theorem allSatisfied_foldl_mono (opts : NavigationOptions) (mainFrameId : String)
    (b : List ProtocolEvent) (s : WaitState) (h : allSatisfied opts s = true) :
    allSatisfied opts (b.foldl (stepEvent opts mainFrameId) s) = true := by
  induction b generalizing s with
  | nil => exact h
  | cons e t ih => exact ih _ (allSatisfied_step_mono _ _ _ _ h)

/-! ### Lemmas about the flush-point race -/

theorem batchOutcome_eq_none (opts : NavigationOptions) (s : WaitState)
    (h : batchOutcome opts s = none) :
    s.timerFired = false ∧ allSatisfied opts s = false := by
  unfold batchOutcome at h
  by_cases h1 : s.timerFired = true
  · simp [h1] at h
  · by_cases h2 : allSatisfied opts s = true
    · simp [h1, h2] at h
    · simp only [Bool.not_eq_true] at h1 h2
      exact ⟨h1, h2⟩

theorem batchOutcome_some_of_not_timer (opts : NavigationOptions) (s : WaitState)
    (r : WaitState × Bool) (h : batchOutcome opts s = some r)
    (ht : s.timerFired = false) :
    allSatisfied opts s = true ∧ r = (s, false) := by
  unfold batchOutcome at h
  rw [ht] at h
  simp only [Bool.false_eq_true, if_false] at h
  by_cases h2 : allSatisfied opts s = true
  · rw [h2] at h
    simp at h
    exact ⟨h2, h.symm⟩
  · simp only [Bool.not_eq_true] at h2
    rw [h2] at h
    simp at h

theorem runBatches_nil (opts : NavigationOptions) (mainFrameId : String)
    (s : WaitState) : runBatches opts mainFrameId s [] = .pending s := rfl

theorem runBatches_cons (opts : NavigationOptions) (mainFrameId : String)
    (s : WaitState) (b : List ProtocolEvent) (rest : List (List ProtocolEvent)) :
    runBatches opts mainFrameId s (b :: rest)
      = (match batchOutcome opts (b.foldl (stepEvent opts mainFrameId) s) with
         | some r => .resolved r.1 r.2
         | none => runBatches opts mainFrameId
             (b.foldl (stepEvent opts mainFrameId) s) rest) := rfl

theorem runBatches_append_pending (opts : NavigationOptions) (mainFrameId : String)
    (bs1 bs2 : List (List ProtocolEvent)) (s s1 : WaitState)
    (h : runBatches opts mainFrameId s bs1 = .pending s1) :
    runBatches opts mainFrameId s (bs1 ++ bs2)
      = runBatches opts mainFrameId s1 bs2 := by
  induction bs1 generalizing s with
  | nil =>
    rw [runBatches_nil] at h
    injection h with h1
    rw [List.nil_append, h1]
  | cons b rest ih =>
    rw [runBatches_cons] at h
    rw [List.cons_append, runBatches_cons]
    cases hbo : batchOutcome opts (b.foldl (stepEvent opts mainFrameId) s) with
    | some r => simp only [hbo] at h; cases h
    | none =>
      simp only [hbo] at h
      simp only [hbo]
      exact ih _ h

theorem runBatches_pending_state (opts : NavigationOptions) (mainFrameId : String)
    (bs : List (List ProtocolEvent)) (s s1 : WaitState)
    (h : runBatches opts mainFrameId s bs = .pending s1) :
    s1 = bs.flatten.foldl (stepEvent opts mainFrameId) s := by
  induction bs generalizing s with
  | nil =>
    rw [runBatches_nil] at h
    injection h with h1
    simp [h1]
  | cons b rest ih =>
    rw [runBatches_cons] at h
    cases hbo : batchOutcome opts (b.foldl (stepEvent opts mainFrameId) s) with
    | some r => simp only [hbo] at h; cases h
    | none =>
      simp only [hbo] at h
      rw [List.flatten_cons, List.foldl_append]
      exact ih _ h

theorem runBatches_pending_invariant (opts : NavigationOptions) (mainFrameId : String)
    (bs : List (List ProtocolEvent)) (s s1 : WaitState)
    (hs : allSatisfied opts s = false) (ht : s.timerFired = false)
    (h : runBatches opts mainFrameId s bs = .pending s1) :
    allSatisfied opts s1 = false ∧ s1.timerFired = false := by
  induction bs generalizing s with
  | nil =>
    rw [runBatches_nil] at h
    injection h with h1
    rw [← h1]
    exact ⟨hs, ht⟩
  | cons b rest ih =>
    rw [runBatches_cons] at h
    cases hbo : batchOutcome opts (b.foldl (stepEvent opts mainFrameId) s) with
    | some r => simp only [hbo] at h; cases h
    | none =>
      simp only [hbo] at h
      have h2 := batchOutcome_eq_none _ _ hbo
      exact ih _ h2.2 h2.1 h

theorem allSatisfied_init_eq_false (opts : NavigationOptions)
    (h : opts.waitUntil ≠ []) :
    allSatisfied opts initWaitState = false := by
  cases hw : opts.waitUntil with
  | nil => exact absurd hw h
  | cons c t =>
    have hc : conditionSatisfied initWaitState c = false := by
      cases c <;> rfl
    simp [allSatisfied, hw, List.all_cons, hc]

theorem validateWaitUntil_ne_nil (w : List WaitCondition)
    (h : validateWaitUntil w = none) : w ≠ [] := by
  intro hw
  subst hw
  simp [validateWaitUntil] at h

theorem runBatches_settled_allSatisfied (opts : NavigationOptions)
    (mainFrameId : String) (bs : List (List ProtocolEvent)) (s : WaitState)
    (hb : bs.flatten.all (fun e => !isTimerEvent e) = true)
    (ht : s.timerFired = false)
    (h : (runBatches opts mainFrameId s bs).isSettled = true) :
    allSatisfied opts (bs.flatten.foldl (stepEvent opts mainFrameId) s) = true := by
  induction bs generalizing s with
  | nil => rw [runBatches_nil] at h; cases h
  | cons b rest ih =>
    rw [List.flatten_cons, List.all_append, Bool.and_eq_true] at hb
    have ht2 : (b.foldl (stepEvent opts mainFrameId) s).timerFired = false := by
      rw [foldl_timerFired _ _ _ _ hb.1]; exact ht
    rw [runBatches_cons] at h
    rw [List.flatten_cons, List.foldl_append]
    cases hbo : batchOutcome opts (b.foldl (stepEvent opts mainFrameId) s) with
    | some r =>
      have h3 := batchOutcome_some_of_not_timer _ _ _ hbo ht2
      exact allSatisfied_foldl_mono _ _ _ _ h3.1
    | none =>
      simp only [hbo] at h
      exact ih _ hb.2 ht2 h

theorem runBatches_not_timedOut (opts : NavigationOptions) (mainFrameId : String)
    (bs : List (List ProtocolEvent)) (s : WaitState)
    (hb : bs.flatten.all (fun e => !isTimerEvent e) = true)
    (ht : s.timerFired = false) :
    (runBatches opts mainFrameId s bs).timedOutFlag = false := by
  induction bs generalizing s with
  | nil => rfl
  | cons b rest ih =>
    rw [List.flatten_cons, List.all_append, Bool.and_eq_true] at hb
    have ht2 : (b.foldl (stepEvent opts mainFrameId) s).timerFired = false := by
      rw [foldl_timerFired _ _ _ _ hb.1]; exact ht
    rw [runBatches_cons]
    cases hbo : batchOutcome opts (b.foldl (stepEvent opts mainFrameId) s) with
    | some r =>
      have h3 := batchOutcome_some_of_not_timer _ _ _ hbo ht2
      simp only [hbo, h3.2]
      rfl
    | none =>
      simp only [hbo]
      exact ih _ hb.2 ht2

theorem runBatches_settled_of_allSatisfied (opts : NavigationOptions)
    (mainFrameId : String) (bs : List (List ProtocolEvent)) (s : WaitState)
    (hb : bs.flatten.all (fun e => !isTimerEvent e) = true)
    (ht : s.timerFired = false)
    (hsat : allSatisfied opts (bs.flatten.foldl (stepEvent opts mainFrameId) s) = true)
    (hne : bs ≠ []) :
    (runBatches opts mainFrameId s bs).isSettled = true := by
  induction bs generalizing s with
  | nil => exact absurd rfl hne
  | cons b rest ih =>
    rw [List.flatten_cons, List.all_append, Bool.and_eq_true] at hb
    have ht2 : (b.foldl (stepEvent opts mainFrameId) s).timerFired = false := by
      rw [foldl_timerFired _ _ _ _ hb.1]; exact ht
    rw [runBatches_cons]
    cases hbo : batchOutcome opts (b.foldl (stepEvent opts mainFrameId) s) with
    | some r => simp only [hbo]; rfl
    | none =>
      simp only [hbo]
      have hn := batchOutcome_eq_none _ _ hbo
      rw [List.flatten_cons, List.foldl_append] at hsat
      cases rest with
      | nil =>
        rw [List.flatten_nil] at hsat
        simp only [List.foldl_nil] at hsat
        rw [hsat] at hn
        exact absurd hn.2 (by simp)
      | cons b2 r2 =>
        exact ih _ hb.2 ht2 hsat (by simp)

theorem batchOutcome_fst (opts : NavigationOptions) (s : WaitState)
    (r : WaitState × Bool) (h : batchOutcome opts s = some r) : r.1 = s := by
  unfold batchOutcome at h
  by_cases h1 : s.timerFired = true
  · rw [if_pos h1] at h
    injection h with h2
    rw [← h2]
  · rw [if_neg h1] at h
    by_cases h2 : allSatisfied opts s = true
    · rw [if_pos h2] at h
      injection h with h3
      rw [← h3]
    · rw [if_neg h2] at h
      cases h

theorem getNavigationWarnings_filter_mismatch (t : Bool) (req fin : String)
    (h : stripFragment req ≠ stripFragment fin) :
    (getNavigationWarnings ⟨t, req, fin⟩).filter isMismatchWarning
      = [Warning.urlMismatch req fin] := by
  have hb : (stripFragment req != stripFragment fin) = true := bne_iff_ne.mpr h
  cases t <;> simp [getNavigationWarnings, hb, isMismatchWarning, List.filter_append]

/-! ### Claim theorems -/

/-- C1: whenever the requested waitUntil set contains fcp but not load,
`gotoURL` fails with the exact validation message and neither sends a
protocol command nor registers a listener. -/
theorem gotoURL_fcp_without_load_rejects (url : String) (opts : NavigationOptions)
    (mainFrameId : String) (bs : List (List ProtocolEvent))
    (hf : WaitCondition.fcp ∈ opts.waitUntil)
    (hl : WaitCondition.load ∉ opts.waitUntil) :
    gotoURL url opts mainFrameId bs
      = (⟨[], []⟩, .error "Cannot wait for FCP without waiting for page load") := by
  have hne : opts.waitUntil ≠ [] := List.ne_nil_of_mem hf
  unfold gotoURL validateWaitUntil
  rw [if_neg hne, if_pos ⟨hf, hl⟩]
  rfl

theorem gotoURL_fcp_without_load_rejects_witness :
    gotoURL "https://www.example.com" ⟨[WaitCondition.fcp], 45000, none, none⟩ "ABC" []
      = (⟨[], []⟩, .error "Cannot wait for FCP without waiting for page load") :=
  gotoURL_fcp_without_load_rejects _ _ _ _ (by decide) (by decide)

/-- C2: when a `gotoURL` call resolves at the flush point ending its event
batches, the final URL of the record is the URL of the last main-frame
navigation (falling back to the requested URL), navigations of other
frames do not contribute, and when the fragment-stripped URLs differ the
record carries exactly one url-mismatch warning holding the original
URL strings. -/
theorem gotoURL_tracks_main_frame_redirects (url : String) (opts : NavigationOptions)
    (mainFrameId : String) (bs1 : List (List ProtocolEvent)) (b : List ProtocolEvent)
    (s0 s : WaitState) (t : Bool) (r : GotoResult)
    (hval : validateWaitUntil opts.waitUntil = none)
    (hpend : runBatches opts mainFrameId initWaitState bs1 = .pending s0)
    (hres : runBatches opts mainFrameId initWaitState (bs1 ++ [b]) = .resolved s t)
    (hrec : gotoURLRecord url opts mainFrameId (bs1 ++ [b]) = some r) :
    r.requestedUrl = url ∧
    r.finalUrl = (mainFrameUrls mainFrameId ((bs1 ++ [b]).flatten)).getLast?.getD url ∧
    (stripFragment url ≠ stripFragment r.finalUrl →
      r.warnings.filter isMismatchWarning = [Warning.urlMismatch url r.finalUrl]) := by
  have happ := runBatches_append_pending opts mainFrameId bs1 [b] _ _ hpend
  rw [happ, runBatches_cons] at hres
  cases hbo : batchOutcome opts (b.foldl (stepEvent opts mainFrameId) s0) with
  | none => simp only [hbo] at hres; cases hres
  | some r2 =>
    simp only [hbo] at hres
    injection hres with hs ht
    have hfst := batchOutcome_fst _ _ _ hbo
    have hchain : s.chain = mainFrameUrls mainFrameId ((bs1 ++ [b]).flatten) := by
      rw [← hs, hfst, foldl_chain]
      rw [runBatches_pending_state opts mainFrameId bs1 initWaitState s0 hpend]
      rw [foldl_chain]
      show initWaitState.chain ++ _ ++ _ = _
      rw [List.flatten_append]
      simp [initWaitState, mainFrameUrls_append, List.flatten_cons]
    have hrecv : r = finalizeRecord url s t := by
      unfold gotoURLRecord gotoURL at hrec
      rw [hval] at hrec
      simp only [happ, runBatches_cons, hbo] at hrec
      injection hrec with h2
      rw [← h2, hs, ht]
    rw [hrecv]
    refine ⟨rfl, ?_, ?_⟩
    · show s.chain.getLast?.getD url = _
      rw [hchain]
    · intro hne
      show (getNavigationWarnings ⟨t, url, s.chain.getLast?.getD url⟩).filter
          isMismatchWarning = _
      exact getNavigationWarnings_filter_mismatch t url _ hne

theorem gotoURL_tracks_main_frame_redirects_witness :
    scenarioARecord.requestedUrl = "http://example.com" ∧
    scenarioARecord.finalUrl
      = (mainFrameUrls "ABC" (([] ++ [scenarioAEvents]).flatten)).getLast?.getD
          "http://example.com" ∧
    scenarioARecord.warnings.filter isMismatchWarning
      = [Warning.urlMismatch "http://example.com" scenarioARecord.finalUrl] := by
  have h := gotoURL_tracks_main_frame_redirects "http://example.com"
    ⟨[WaitCondition.navigated], 45000, none, none⟩ "ABC" [] scenarioAEvents
    initWaitState scenarioAState false scenarioARecord (by decide) rfl
    (by decide) (by decide)
  exact ⟨h.1, h.2.1, h.2.2 (by decide)⟩

/-- C3 counterexample: a record whose requested and final URL are the same
internal-error-page URL has equal fragment-stripped URLs and a false
timed-out flag, yet its warnings are not empty, because an error-page
final URL always counts as a mismatch. -/
theorem getNavigationWarnings_empty_iff_cex :
    stripFragment "chrome-error://chromewebdata/"
        = stripFragment "chrome-error://chromewebdata/" ∧
    getNavigationWarnings
        ⟨false, "chrome-error://chromewebdata/", "chrome-error://chromewebdata/"⟩ ≠ [] := by
  decide

/-- C3 (amended): the warnings are empty iff the record did not time out,
the final URL is not an internal-error-page URL, and the two URLs are
equal after discarding fragments. -/
theorem getNavigationWarnings_empty_iff (r : NavigationRecord) :
    getNavigationWarnings r = []
      ↔ (r.timedOut = false ∧ isErrorPageUrl r.finalUrl = false ∧
         stripFragment r.requestedUrl = stripFragment r.finalUrl) := by
  obtain ⟨t, req, fin⟩ := r
  cases t with
  | true => simp [getNavigationWarnings]
  | false =>
    by_cases he : isErrorPageUrl fin = true
    · simp [getNavigationWarnings, he]
    · simp only [Bool.not_eq_true] at he
      by_cases hs : stripFragment req = stripFragment fin
      · simp [getNavigationWarnings, he, hs]
      · simp [getNavigationWarnings, he, hs, bne_iff_ne.mpr hs]

/-- C4 counterexample: two URLs that differ only in their fragment, but
whose final URL has the internal-error-page scheme, do produce a
url-mismatch warning. -/
theorem getNavigationWarnings_fragment_cex :
    stripFragment "chrome-error://chromewebdata/"
        = stripFragment "chrome-error://chromewebdata/#fragment" ∧
    (getNavigationWarnings ⟨false, "chrome-error://chromewebdata/",
        "chrome-error://chromewebdata/#fragment"⟩).filter isMismatchWarning ≠ [] := by
  decide

/-- C4 (amended): for URLs that agree after discarding fragments, no
url-mismatch warning is produced, provided the final URL is not an
internal-error-page URL. -/
theorem getNavigationWarnings_fragment_only_no_mismatch (t : Bool) (req fin : String)
    (herr : isErrorPageUrl fin = false)
    (hfrag : stripFragment req = stripFragment fin) :
    (getNavigationWarnings ⟨t, req, fin⟩).filter isMismatchWarning = [] := by
  cases t <;> simp [getNavigationWarnings, herr, hfrag, isMismatchWarning]

theorem getNavigationWarnings_fragment_only_no_mismatch_witness :
    (getNavigationWarnings
        ⟨false, "http://example.com/", "http://example.com/#fragment"⟩).filter
        isMismatchWarning = [] :=
  getNavigationWarnings_fragment_only_no_mismatch false "http://example.com/"
    "http://example.com/#fragment" (by decide) (by decide)

/-- C5: a record whose final URL has the internal-error-page scheme and
whose timed-out flag is false yields exactly one url-mismatch warning,
whatever the requested URL is. -/
theorem getNavigationWarnings_error_page_mismatch (req fin : String)
    (herr : isErrorPageUrl fin = true) :
    getNavigationWarnings ⟨false, req, fin⟩ = [Warning.urlMismatch req fin] := by
  simp [getNavigationWarnings, herr]

theorem getNavigationWarnings_error_page_mismatch_witness :
    getNavigationWarnings ⟨false, "http://example.com/", "chrome-error://chromewebdata/"⟩
      = [Warning.urlMismatch "http://example.com/" "chrome-error://chromewebdata/"] :=
  getNavigationWarnings_error_page_mismatch "http://example.com/"
    "chrome-error://chromewebdata/" (by decide)

/-- C6: a timed-out record carries a timeout warning, and whenever both a
timeout warning and a url-mismatch warning are present, the output is
exactly the timeout warning followed by the mismatch warning. -/
theorem getNavigationWarnings_timeout_precedes_mismatch (r : NavigationRecord) :
    (r.timedOut = true → Warning.timeout ∈ getNavigationWarnings r) ∧
    (∀ req fin, Warning.timeout ∈ getNavigationWarnings r →
      Warning.urlMismatch req fin ∈ getNavigationWarnings r →
      getNavigationWarnings r = [Warning.timeout, Warning.urlMismatch req fin]) := by
  obtain ⟨t, requ0, fin0⟩ := r
  cases t with
  | false =>
    refine ⟨fun h => absurd h Bool.false_ne_true, fun req fin hmem hmem2 => ?_⟩
    by_cases hc : (isErrorPageUrl fin0
        || stripFragment requ0 != stripFragment fin0) = true
    · simp [getNavigationWarnings, hc] at hmem
    · simp only [Bool.not_eq_true] at hc
      simp [getNavigationWarnings, hc] at hmem
  | true =>
    refine ⟨fun _ => ?_, fun req fin hmem hmem2 => ?_⟩
    · simp [getNavigationWarnings]
    · by_cases hc : (isErrorPageUrl fin0
          || stripFragment requ0 != stripFragment fin0) = true
      · have hmem3 : Warning.urlMismatch req fin
            ∈ [Warning.timeout, Warning.urlMismatch requ0 fin0] := by
          simpa [getNavigationWarnings, hc] using hmem2
        have heq : req = requ0 ∧ fin = fin0 := by
          rcases List.mem_cons.mp hmem3 with h | h
          · cases h
          · have h2 := List.mem_singleton.mp h
            injection h2 with a b
            exact ⟨a, b⟩
        rw [heq.1, heq.2]
        simp [getNavigationWarnings, hc]
      · simp only [Bool.not_eq_true] at hc
        simp [getNavigationWarnings, hc] at hmem2

theorem getNavigationWarnings_timeout_precedes_mismatch_witness :
    Warning.timeout ∈ getNavigationWarnings
        ⟨true, "http://example.com", "https://m.example.com/client"⟩ ∧
    getNavigationWarnings ⟨true, "http://example.com", "https://m.example.com/client"⟩
      = [Warning.timeout,
         Warning.urlMismatch "http://example.com" "https://m.example.com/client"] := by
  have h := getNavigationWarnings_timeout_precedes_mismatch
    ⟨true, "http://example.com", "https://m.example.com/client"⟩
  exact ⟨h.1 rfl, h.2 _ _ (h.1 rfl) (by decide)⟩

/-- C7: with waitUntil load, navigated and fcp, and no timer expiry, the
returned promise is settled exactly when the event stream contains a
frame-navigated event, the DOM-content event, the load event and the
first-contentful-paint lifecycle event; it never resolves as timed
out. -/
theorem gotoURL_waits_for_navigated_load_and_fcp (d : Nat) (mainFrameId : String)
    (bs : List (List ProtocolEvent))
    (hb : bs.flatten.all (fun e => !isTimerEvent e) = true) :
    ((runBatches ⟨[WaitCondition.load, WaitCondition.navigated, WaitCondition.fcp], d,
        some 0, some 0⟩ mainFrameId initWaitState bs).isSettled = true ↔
      (bs.flatten.any isFrameNavigatedEvent = true ∧
       bs.flatten.any isDomContentEvent = true ∧
       bs.flatten.any isLoadEvent = true ∧
       bs.flatten.any isFcpEvent = true)) ∧
    (runBatches ⟨[WaitCondition.load, WaitCondition.navigated, WaitCondition.fcp], d,
        some 0, some 0⟩ mainFrameId initWaitState bs).timedOutFlag = false := by
  have key : allSatisfied
      ⟨[WaitCondition.load, WaitCondition.navigated, WaitCondition.fcp], d, some 0, some 0⟩
      (bs.flatten.foldl (stepEvent ⟨[WaitCondition.load, WaitCondition.navigated,
        WaitCondition.fcp], d, some 0, some 0⟩ mainFrameId) initWaitState)
      = (bs.flatten.any isFrameNavigatedEvent && bs.flatten.any isDomContentEvent &&
         bs.flatten.any isLoadEvent && bs.flatten.any isFcpEvent) := by
    simp only [allSatisfied, List.all_cons, List.all_nil, conditionSatisfied,
      quietSatisfied, foldl_navigatedFired, foldl_domContentFired, foldl_loadFired,
      foldl_fcpFired, initWaitState, Bool.false_or, Bool.and_true, beq_self_eq_true]
    generalize bs.flatten.any isFrameNavigatedEvent = a
    generalize bs.flatten.any isDomContentEvent = b
    generalize bs.flatten.any isLoadEvent = c
    generalize bs.flatten.any isFcpEvent = e
    cases a <;> cases b <;> cases c <;> cases e <;> rfl
  constructor
  · constructor
    · intro h
      have hsat := runBatches_settled_allSatisfied _ _ _ _ hb rfl h
      rw [key] at hsat
      simp only [Bool.and_eq_true] at hsat
      exact ⟨hsat.1.1.1, hsat.1.1.2, hsat.1.2, hsat.2⟩
    · rintro ⟨h1, h2, h3, h4⟩
      have hsat : (bs.flatten.any isFrameNavigatedEvent && bs.flatten.any isDomContentEvent &&
          bs.flatten.any isLoadEvent && bs.flatten.any isFcpEvent) = true := by
        simp only [Bool.and_eq_true]
        exact ⟨⟨⟨h1, h2⟩, h3⟩, h4⟩
      have hne : bs ≠ [] := by
        intro hnil
        subst hnil
        simp at h1
      rw [← key] at hsat
      exact runBatches_settled_of_allSatisfied _ _ _ _ hb rfl hsat hne
  · exact runBatches_not_timedOut _ _ _ _ hb rfl

theorem gotoURL_waits_for_navigated_load_and_fcp_witness :
    (runBatches ⟨[WaitCondition.load, WaitCondition.navigated, WaitCondition.fcp], 45000,
        some 0, some 0⟩ "ABC" initWaitState scenarioEBatches).isSettled = true :=
  ((gotoURL_waits_for_navigated_load_and_fcp 45000 "ABC" scenarioEBatches
    (by decide)).1).mpr ⟨by decide, by decide, by decide, by decide⟩

/-- C8: when the overall load timer expires at a flush point where the
promise of a validated `gotoURL` call is still pending, the call does
not reject: it resolves with a record whose timed-out flag is true and
whose final URL is the last main-frame URL observed so far, or the
requested URL if none. -/
theorem gotoURL_timeout_resolves_with_partial_record (url : String)
    (opts : NavigationOptions) (mainFrameId : String)
    (bs : List (List ProtocolEvent)) (s0 : WaitState)
    (hval : validateWaitUntil opts.waitUntil = none)
    (hpend : runBatches opts mainFrameId initWaitState bs = .pending s0) :
    (gotoURL url opts mainFrameId (bs ++ [[ProtocolEvent.loadTimerExpired]])).2
      = .ok (.resolved { s0 with timerFired := true } true) ∧
    gotoURLRecord url opts mainFrameId (bs ++ [[ProtocolEvent.loadTimerExpired]])
      = some { requestedUrl := url, finalUrl := s0.chain.getLast?.getD url,
               timedOut := true,
               warnings := getNavigationWarnings
                 ⟨true, url, s0.chain.getLast?.getD url⟩ } := by
  have hne := validateWaitUntil_ne_nil _ hval
  have hinv := runBatches_pending_invariant opts mainFrameId bs initWaitState s0
    (allSatisfied_init_eq_false opts hne) rfl hpend
  have hrun : runBatches opts mainFrameId initWaitState
      (bs ++ [[ProtocolEvent.loadTimerExpired]])
      = .resolved { s0 with timerFired := true } true := by
    rw [runBatches_append_pending opts mainFrameId bs _ _ _ hpend, runBatches_cons]
    simp [stepEvent, batchOutcome, hinv.1]
  constructor
  · unfold gotoURL
    rw [hval]
    rw [hrun]
  · unfold gotoURLRecord gotoURL
    rw [hval]
    simp only [hrun, finalizeRecord]

theorem gotoURL_timeout_resolves_with_partial_record_witness :
    (gotoURL "https://www.example.com" ⟨[WaitCondition.navigated], 45000, none, none⟩
        "ABC" [[], [ProtocolEvent.loadTimerExpired]]).2
      = .ok (.resolved { initWaitState with timerFired := true } true) ∧
    gotoURLRecord "https://www.example.com" ⟨[WaitCondition.navigated], 45000, none, none⟩
        "ABC" [[], [ProtocolEvent.loadTimerExpired]]
      = some { requestedUrl := "https://www.example.com",
               finalUrl := "https://www.example.com", timedOut := true,
               warnings := [Warning.timeout] } := by
  have h := gotoURL_timeout_resolves_with_partial_record "https://www.example.com"
    ⟨[WaitCondition.navigated], 45000, none, none⟩ "ABC" [[]] initWaitState rfl rfl
  exact ⟨h.1, h.2.trans (by decide)⟩

/-- C9: every record a `gotoURL` call resolves with carries a warnings
field equal to the warning analyzer applied to the record's own
timed-out flag, requested URL and final URL. -/
theorem gotoURL_record_carries_warnings (url : String) (opts : NavigationOptions)
    (mainFrameId : String) (bs : List (List ProtocolEvent)) (r : GotoResult)
    (h : gotoURLRecord url opts mainFrameId bs = some r) :
    r.warnings = getNavigationWarnings ⟨r.timedOut, r.requestedUrl, r.finalUrl⟩ := by
  unfold gotoURLRecord at h
  cases hg : (gotoURL url opts mainFrameId bs).2 with
  | error msg => simp only [hg] at h; cases h
  | ok oc =>
    cases oc with
    | pending s => simp only [hg] at h; cases h
    | resolved s t =>
      simp only [hg] at h
      injection h with h1
      rw [← h1]
      simp [finalizeRecord]

theorem gotoURL_record_carries_warnings_witness :
    scenarioARecord.warnings
      = getNavigationWarnings ⟨scenarioARecord.timedOut, scenarioARecord.requestedUrl,
          scenarioARecord.finalUrl⟩ :=
  gotoURL_record_carries_warnings "http://example.com"
    ⟨[WaitCondition.navigated], 45000, none, none⟩ "ABC" [scenarioAEvents]
    scenarioARecord (by decide)

/-- C10: with waitUntil navigated, a frame-navigated event whose frame
carries a URL but no id satisfies the navigated condition and resolves
the promise, even though it does not match the concrete main frame id
and thus never extends the redirect chain. -/
theorem gotoURL_navigated_resolves_without_frame_id (url mainFrameId u : String)
    (d : Nat) :
    runBatches ⟨[WaitCondition.navigated], d, none, none⟩ mainFrameId initWaitState
        [[ProtocolEvent.frameNavigated none u]]
      = .resolved { initWaitState with navigatedFired := true } false ∧
    gotoURLRecord url ⟨[WaitCondition.navigated], d, none, none⟩ mainFrameId
        [[ProtocolEvent.frameNavigated none u]]
      = some { requestedUrl := url, finalUrl := url, timedOut := false,
               warnings := getNavigationWarnings ⟨false, url, url⟩ } := by
  have h1 : runBatches ⟨[WaitCondition.navigated], d, none, none⟩ mainFrameId
      initWaitState [[ProtocolEvent.frameNavigated none u]]
      = .resolved { initWaitState with navigatedFired := true } false := by
    rw [runBatches_cons]
    simp [stepEvent, batchOutcome, allSatisfied, conditionSatisfied, quietSatisfied,
      initWaitState]
  refine ⟨h1, ?_⟩
  unfold gotoURLRecord gotoURL
  have hval : validateWaitUntil [WaitCondition.navigated] = none := by decide
  rw [hval]
  simp only [h1, finalizeRecord]
  rfl

end Navigation
